import Mathlib

/-!
Verification of the classification engine of the radiology RVU dashboard
(`app.py`).  The Python functions `modality_from_examcode`,
`body_part_from_examcode`, `modality_from_desc`, `body_parts_from_desc`,
`region_ct`, `contrast_phrase`, `is_angiography_or_venogram`,
`exam_from_desc`, `exam_from_examcode` and the enrichment dispatch of
`process_dataframe` are embedded shallowly below.  Text is modelled as
`List Char`; the regular expressions of the source are each translated
into an explicit scanning function with the same semantics (word
boundaries, alternation precedence, `\s+` backtracking, anchored
lookaheads).  A missing / NaN exam code is modelled as `Option.none`;
raising `ValueError` is modelled with `Except`.
-/

namespace RVU

/-- ASCII word character, the model of the regex class `\w` (the inputs
handled by the program are ASCII clinical strings). -/
def isWordChar (c : Char) : Bool := c.isAlpha || c.isDigit || c = '_'

/-- Whitespace as matched by the regex class `\s` and by `str.split`. -/
def isSpaceChar (c : Char) : Bool :=
  c = ' ' || c = '\t' || c = '\n' || c = '\r' || c = '\x0b' || c = '\x0c'

/-- List prefix test (plain, character by character). -/
def isPre : List Char → List Char → Bool
  | [], _ => true
  | _ :: _, [] => false
  | a :: as, b :: bs => a == b && isPre as bs

/-- The character before a match position allows a `\b` word boundary:
either there is no previous character or it is not a word character. -/
def okLeft : Option Char → Bool
  | none => true
  | some c => !isWordChar c

/-- The text after a match allows a `\b` word boundary: end of string or
a non-word character (the needles all end in word characters). -/
def okRight : List Char → Bool
  | [] => true
  | c :: _ => !isWordChar c

/-- Does `needle` occur at this exact position, subject to the requested
left / right word-boundary requirements?  `prev` is the character just
before the position. -/
def hitHere (needle : List Char) (lb rb : Bool) (prev : Option Char) (h : List Char) : Bool :=
  (!lb || okLeft prev) && isPre needle h && (!rb || okRight (h.drop needle.length))

/-- All suffixes of the text that follow an occurrence of `needle`
(optionally requiring word boundaries on either side), scanning left to
right.  This is the work-horse for embedding `re.search`: an occurrence
exists iff the returned list is non-empty, and `.*`-separated patterns
chain through the suffixes. -/
def scanOccs (needle : List Char) (lb rb : Bool) : Option Char → List Char → List (List Char)
  | prev, [] => if hitHere needle lb rb prev [] then [[]] else []
  | prev, c :: t =>
      (if hitHere needle lb rb prev (c :: t) then [(c :: t).drop needle.length] else [])
        ++ scanOccs needle lb rb (some c) t

/-- Suffixes after each plain (boundary-free) occurrence of `n`. -/
def occSuffixes (n : String) (h : List Char) : List (List Char) :=
  scanOccs n.toList false false none h

/-- Plain substring containment, the model of Python `n in h` and of a
bare regex alternative with no `\b`. -/
def containsS (h : List Char) (n : String) : Bool := !(occSuffixes n h).isEmpty

/-- Occurrence with a word boundary required on the left only (`\bN`). -/
def containsLB (h : List Char) (n : String) : Bool :=
  !(scanOccs n.toList true false none h).isEmpty

/-- Occurrence with a word boundary required on the right only (`N\b`). -/
def containsRB (h : List Char) (n : String) : Bool :=
  !(scanOccs n.toList false true none h).isEmpty

/-- Whole-word occurrence (`\bN\b`). -/
def containsW (h : List Char) (n : String) : Bool :=
  !(scanOccs n.toList true true none h).isEmpty

/-- Drop leading whitespace. -/
def dropSpaces : List Char → List Char
  | [] => []
  | c :: t => if isSpaceChar c then dropSpaces t else c :: t

/-- Model of a trailing `\s+N` with `N` starting in a non-space: at least
one whitespace character, then (all contiguous whitespace consumed) `N`. -/
def spacePlusPrefix (n : String) : List Char → Bool
  | [] => false
  | c :: t => isSpaceChar c && isPre n.toList (dropSpaces t)

/-- Model of `\s+\s+N`: at least two whitespace characters then `N`
(this arises when a `\s+` inside a group is followed by another `\s+`). -/
def twoSpacesThen (n : String) : List Char → Bool
  | [] => false
  | c :: t => isSpaceChar c && spacePlusPrefix n t

/-- Model of `\s+\b`: at least one whitespace character and the first
non-space character after it exists and is a word character. -/
def spacesThenWord : List Char → Bool
  | [] => false
  | c :: t => isSpaceChar c &&
      (match dropSpaces t with
       | [] => false
       | d :: _ => isWordChar d)

/-- Model of `\s+A\s+B` with `A`, `B` starting in non-spaces. -/
def spacePlusThenSeq (a b : String) : List Char → Bool
  | [] => false
  | c :: t => isSpaceChar c &&
      (let r := dropSpaces t
       isPre a.toList r && spacePlusPrefix b (r.drop a.toList.length))

/-- Anchored prefix test (`re.match` with `^N`). -/
def startsW (h : List Char) (n : String) : Bool := isPre n.toList h

/-- First character is whitespace (`\s+` with nothing after it). -/
def headIsSpace : List Char → Bool
  | [] => false
  | c :: _ => isSpaceChar c

/-- Model of `\bN\s+` (left boundary, then at least one whitespace). -/
def lbThenSpace (n : String) (h : List Char) : Bool :=
  (scanOccs n.toList true false none h).any headIsSpace

/-- Model of `\bN\s+\b` as it appears in grouped exclusion patterns. -/
def lbThenSpacesWord (n : String) (h : List Char) : Bool :=
  (scanOccs n.toList true false none h).any spacesThenWord

/-- Model of `A\s+B` (plain, no boundaries). -/
def seqPlainSp (a b : String) (t : List Char) : Bool :=
  (occSuffixes a t).any (spacePlusPrefix b)

/-- Model of `A.*B` (plain). -/
def seqPlain (a b : String) (h : List Char) : Bool :=
  (occSuffixes a h).any (fun s => containsS s b)

/-- Model of `A.*B\b`. -/
def seqPlainRB (a b : String) (h : List Char) : Bool :=
  (occSuffixes a h).any (fun s => containsRB s b)

/-- Suffixes after a whole-word occurrence of any alternative in the
group (`\b(?:A1|A2|...)\b`); `prev` supplies the character before the
scanned text. -/
def wordAltSuffixes (alts : List String) (prev : Option Char) (h : List Char) : List (List Char) :=
  alts.foldr (fun a acc => scanOccs a.toList true true prev h ++ acc) []

/-- Model of `\bG1\b.*\bG2\b`.  After the first group the preceding
character is the last letter of the matched alternative, a word
character, so the continuation scans with a word-character `prev`. -/
def seq2W (g1 g2 : List String) (h : List Char) : Bool :=
  (wordAltSuffixes g1 none h).any
    (fun s1 => !(wordAltSuffixes g2 (some 'A') s1).isEmpty)

/-- Model of `\bG1\b.*\bG2\b.*\bG3\b`. -/
def seq3W (g1 g2 g3 : List String) (h : List Char) : Bool :=
  (wordAltSuffixes g1 none h).any (fun s1 =>
    (wordAltSuffixes g2 (some 'A') s1).any
      (fun s2 => !(wordAltSuffixes g3 (some 'A') s2).isEmpty))

/-- ASCII uppercasing, the model of `str.upper`. -/
def upL (l : List Char) : List Char := l.map Char.toUpper

/-- ASCII lowercasing, the model of `str.lower`. -/
def lowL (l : List Char) : List Char := l.map Char.toLower

/-- Strip leading and trailing whitespace, the model of `str.strip`. -/
def stripL (l : List Char) : List Char :=
  ((l.dropWhile isSpaceChar).reverse.dropWhile isSpaceChar).reverse

/-- Collapse each maximal whitespace run to a single space, the model of
`re.sub(r"\s+", " ", s)`. -/
def collapseWS : List Char → List Char
  | [] => []
  | [c] => if isSpaceChar c then [' '] else [c]
  | c :: d :: t =>
      if isSpaceChar c then
        (if isSpaceChar d then collapseWS (d :: t) else ' ' :: collapseWS (d :: t))
      else c :: collapseWS (d :: t)

/-- Model of `re.sub(r"\s+", " ", s).strip()` from `exam_from_desc`. -/
def normWS (l : List Char) : List Char := stripL (collapseWS l)

/-- Model of `", ".join(parts)`. -/
def joinComma : List String → String
  | [] => ""
  | [x] => x
  | x :: y :: t => x ++ ", " ++ joinComma (y :: t)

/-- Deduplication with an accumulator of already-seen elements, the
model of the `seen`-set loop at the end of `body_parts_from_desc`. -/
def dedupAux (seen : List String) : List String → List String
  | [] => []
  | x :: xs => if seen.contains x then dedupAux seen xs else x :: dedupAux (x :: seen) xs

/-- Deduplicate keeping the first occurrence of each element. -/
def dedupStr (l : List String) : List String := dedupAux [] l

/-- First-match-wins evaluation of an ordered rule table, the model of
the `for pattern, result in PATTERNS.items()` loops. -/
def firstMatch (rules : List ((List Char → Bool) × String)) (t : List Char) : Option String :=
  match rules with
  | [] => none
  | r :: rs => if r.1 t then some r.2 else firstMatch rs t

/-! ## Pattern tables (`app.py` lines 144–171, 203–233, 324–358) -/

/-- `MODALITY_PATTERNS` (lines 144–158): ordered `re.match` rules on the
uppercased, stripped exam code.  The anchored lookaheads become prefix
tests plus containment of the lookahead literal in the rest of the code
(`^CT(?!.*ANG)` is: starts with `CT` and `ANG` does not occur from
position 2 on). -/
def MODALITY_PATTERNS : List ((List Char → Bool) × String) := [
  (fun c => startsW c "XR", "Radiography"),
  (fun c => startsW c "AX", "Radiography"),
  (fun c => startsW c "RT", "Radiography"),
  (fun c => startsW c "CT" && !containsS (c.drop 2) "ANG", "CT"),
  (fun c => startsW c "CT" && containsS (c.drop 2) "ANG", "CTA"),
  (fun c => startsW c "MR" && !containsS (c.drop 2) "MRA" && !containsS (c.drop 2) "MRV", "MRI"),
  (fun c => startsW c "MR" && containsS (c.drop 2) "MRA", "MRA"),
  (fun c => startsW c "MR" && containsS (c.drop 2) "MRV", "MRV"),
  (fun c => startsW c "FL", "Fluoroscopy"),
  (fun c => startsW c "NM", "Nuclear Medicine"),
  (fun c => startsW c "Z" &&
      (occSuffixes "PET" (c.drop 1)).any (fun s => containsS s "CT"), "PET/CT"),
  (fun c => startsW c "Z" && containsS (c.drop 1) "PET", "PET"),
  (fun c => startsW c "Z", "Nuclear Medicine")]

/-- `NM_KEYWORDS` (lines 161–168): does any of the nuclear-medicine
keyword regexes hit the text?  `A\s+B` alternatives become
`seqPlainSp`. -/
def nmKeywordHit (t : List Char) : Bool :=
  seqPlainSp "BONE" "SCAN" t || containsS t "HIDA" || containsS t "NUCLEAR" ||
  seqPlainSp "RENAL" "SCAN" t || containsS t "MAG3" ||
  seqPlainSp "GASTRIC" "EMPTYING" t ||
  (occSuffixes "LIVER" t).any (spacePlusThenSeq "AND" "SPLEEN") ||
  containsS t "HEPATOBILIARY" || containsS t "THYROID" || containsS t "PARATHYROID" ||
  containsS t "SCAN" || containsS t "INJECTION" || containsS t "RADIOACTIVE" ||
  containsS t "TECHNETIUM" || containsS t "I-131" || containsS t "I-123" ||
  containsS t "GALLIUM" || containsS t "INDIUM" || containsS t "OCTREOTIDE" ||
  containsS t "MUGA" || containsS t "MYOCARDIAL" || containsS t "PERFUSION" ||
  containsS t "VENTILATION" || containsS t "DMSA" || containsS t "DTPA" ||
  containsS t "LASIX" || seqPlainSp "3" "PHASE" t || seqPlainSp "WHOLE" "BODY" t ||
  containsS t "SALIVARY"

/-- `HEAD_NECK_KEYWORDS` (line 171). -/
def hnKwHit (t : List Char) : Bool :=
  containsS t "HEAD" || containsS t "NECK" || containsS t "THYROID" ||
  containsS t "PARATHYROID" || containsS t "SALIVARY" || containsS t "SALIVA"

/-- `BODY_PART_CODE_PATTERNS` (lines 205–233): ordered `re.match` rules
on the exam code.  `.*` sequencing chains through occurrence suffixes;
`^CT.*AB(?!.*PE)` asks for some `AB` occurrence with no later `PE`. -/
def BODY_PART_CODE_PATTERNS : List ((List Char → Bool) × String) := [
  (fun c => startsW c "CT" &&
      (occSuffixes "CH" (c.drop 2)).any (fun s =>
        (occSuffixes "AB" s).any (fun s2 => containsS s2 "PE")), "Chest, Abdomen, Pelvis"),
  (fun c => startsW c "CT" &&
      (occSuffixes "AB" (c.drop 2)).any (fun s => containsS s "PE"), "Abdomen, Pelvis"),
  (fun c => startsW c "CT" && containsS (c.drop 2) "CH", "Chest"),
  (fun c => startsW c "CT" && containsS (c.drop 2) "PE", "Pelvis"),
  (fun c => startsW c "CT" &&
      (occSuffixes "AB" (c.drop 2)).any (fun s => !containsS s "PE"), "Abdomen"),
  (fun c => startsW c "CT" && containsS (c.drop 2) "ANG", "Vascular"),
  (fun c => startsW c "MR" && containsS (c.drop 2) "KN", "Lower Extremity"),
  (fun c => startsW c "MR" && containsS (c.drop 2) "SH", "Upper Extremity"),
  (fun c => startsW c "MR" && containsS (c.drop 2) "HI", "Head/Neck"),
  (fun c => (startsW c "XR" && containsS (c.drop 2) "CH") ||
      (startsW c "AX" && containsS (c.drop 2) "CH"), "Chest"),
  (fun c => (startsW c "XR" && containsS (c.drop 2) "AB") ||
      (startsW c "AX" && containsS (c.drop 2) "AB"), "Abdomen"),
  (fun c => startsW c "RT" && containsS (c.drop 2) "CH", "Chest"),
  (fun c => startsW c "RT" && (containsS (c.drop 2) "HI" || containsS (c.drop 2) "HA"), "Upper Extremity"),
  (fun c => startsW c "RT" && containsS (c.drop 2) "SH", "Upper Extremity"),
  (fun c => startsW c "RT" && containsS (c.drop 2) "EL", "Upper Extremity"),
  (fun c => startsW c "RT" && containsS (c.drop 2) "KN", "Lower Extremity"),
  (fun c => startsW c "RT" && (containsS (c.drop 2) "FO" || containsS (c.drop 2) "AN"), "Lower Extremity"),
  (fun c => startsW c "RT" && containsS (c.drop 2) "FE", "Lower Extremity"),
  (fun c => startsW c "RT" && containsS (c.drop 2) "TI", "Lower Extremity"),
  (fun c => startsW c "RT" && containsS (c.drop 2) "PE", "Pelvis"),
  (fun c => startsW c "RT" && containsS (c.drop 2) "CL", "Upper Extremity"),
  (fun c => startsW c "RT" && containsS (c.drop 2) "LS", "Spine"),
  (fun c => startsW c "NM" && (containsS (c.drop 2) "HIDA" || containsS (c.drop 2) "HEPATOBILIARY"), "Liver"),
  (fun c => startsW c "NM" && (containsS (c.drop 2) "KID" || containsS (c.drop 2) "RENAL" || containsS (c.drop 2) "MAG3"), "Renal"),
  (fun c => startsW c "NM" && (containsS (c.drop 2) "LUNG" || containsS (c.drop 2) "VEN" || containsS (c.drop 2) "PERF"), "Chest"),
  (fun c => startsW c "NM" && (containsS (c.drop 2) "BONE" || containsS (c.drop 2) "BJTOT"), "Whole Body"),
  (fun c => startsW c "NM" && (containsS (c.drop 2) "GES" || containsS (c.drop 2) "GASTRIC"), "Stomach")]

/-- `BODY_PART_PATTERNS` (lines 324–340): `re.search` rules on the
uppercased description.  In each pattern the leading `\b` binds only to
the first alternative and the trailing `\b` only to the last one; the
middle alternatives are plain substrings. -/
def BODY_PART_PATTERNS : List (String × (List Char → Bool)) := [
  ("Head/Neck", fun t => containsLB t "HEAD" || containsS t "NECK" || containsS t "BRAIN" ||
      containsS t "SKULL" || containsS t "ORBITS" || containsS t "FACIAL" || containsS t "SINUS" ||
      containsS t "TEMPORAL" || containsS t "PITUITARY" || containsS t "CRANIAL" ||
      containsRB t "SKULL BASE"),
  ("Chest", fun t => containsLB t "CHEST" || containsS t "LUNG" || containsRB t "THORAX"),
  ("Abdomen", fun t => containsLB t "ABDOMEN" || containsRB t "ABDOMINAL"),
  ("Pelvis", fun t => containsW t "PELVIS" || containsW t "PELVIC"),
  ("Spine", fun t => containsLB t "SPINE" || containsS t "LUMBOSACRAL" || containsS t "L SPINE" ||
      containsS t "T SPINE" || containsS t "C SPINE" || containsS t "CERVICAL" ||
      containsS t "THORACIC" || containsS t "LUMBAR" || containsS t "SACRUM" ||
      containsRB t "COCCYX"),
  ("Upper Extremity", fun t => containsLB t "SHOULDER" || containsS t "ELBOW" ||
      containsS t "WRIST" || containsS t "HAND" || containsS t "FINGER" ||
      containsS t "HUMERUS" || containsS t "FOREARM" || containsS t "CLAVICLE" ||
      containsRB t "ARM"),
  ("Lower Extremity", fun t => containsLB t "HIP" || containsS t "KNEE" || containsS t "ANKLE" ||
      containsS t "FOOT" || containsS t "TOE" || containsS t "FEMUR" || containsS t "TIBIA" ||
      containsS t "FIBULA" || containsS t "THIGH" || containsRB t "LEG"),
  ("Breast", fun t => containsLB t "BREAST" || containsRB t "MAMMO"),
  ("Renal", fun t => containsLB t "RENAL" || containsRB t "KIDNEY"),
  ("Cardiac", fun t => containsLB t "CARDIAC" || containsS t "HEART" || containsRB t "ECHO"),
  ("Vascular", fun t => containsLB t "CAROTID" || containsS t "ARTERIAL" || containsS t "VENOUS" ||
      containsS t "VEIN" || containsRB t "ARTERY"),
  ("Liver", fun t => containsLB t "LIVER" || containsS t "HEPATOBILIARY" ||
      containsS t "HEPATIC" || containsRB t "HIDA"),
  ("Spleen", fun t => containsW t "SPLEEN"),
  ("Stomach", fun t => containsLB t "STOMACH" || containsS t "GASTRIC" ||
      containsS t "ESOPHAGUS" || containsRB t "SWALLOW"),
  ("Whole Body", fun t => containsLB t "WHOLE BODY" || containsS t "BONE SCAN" ||
      containsS t "TUMOR IMAGING" || seqPlain "SKULL BASE" "MID THIGH" t ||
      seqPlainRB "SKULL BASE" "THIGH" t)]

/-- First alternative of `\bPET\s*/\s*CT` (line 344): a left-bounded
`PET`, optional whitespace, a slash, optional whitespace, `CT`. -/
def petSlashCT (t : List Char) : Bool :=
  (scanOccs "PET".toList true false none t).any (fun s =>
    match dropSpaces s with
    | [] => false
    | c :: r => c == '/' && isPre "CT".toList (dropSpaces r))

/-- `DESC_MODALITY_PATTERNS` (lines 343–358): ordered `re.search` rules
on the uppercased description. -/
def DESC_MODALITY_PATTERNS : List ((List Char → Bool) × String) := [
  (fun t => petSlashCT t || seqPlainSp "PET" "CT" t, "PET/CT"),
  (fun t => containsW t "PET" || containsS t "POSITRON", "PET"),
  (fun t => containsW t "MRA" || containsS t "ANGIOGRAPHY" || containsS t "ANGIOGRAM", "MRA"),
  (fun t => containsW t "MRV" || containsS t "VENOGRAPHY" || containsS t "VENOGRAM", "MRV"),
  (fun t => containsW t "MRI" || (occSuffixes "MR" t).any headIsSpace, "MRI"),
  (fun t => containsW t "CTA" || seqPlainSp "CT" "ANGIOGRAPHY" t || seqPlainSp "CT" "ANGIOGRAM" t, "CTA"),
  (fun t => containsW t "CTV" || seqPlainSp "CT" "VENOGRAPHY" t || seqPlainSp "CT" "VENOGRAM" t, "CTV"),
  (fun t => containsW t "CT", "CT"),
  (fun t => lbThenSpace "NM" t || seqPlainSp "NUCLEAR" "MEDICINE" t, "Nuclear Medicine"),
  (fun t => lbThenSpace "US" t || containsS t "ULTRASOUND", "US"),
  (fun t => lbThenSpace "XR" t || containsS t "X-RAY", "Radiography"),
  (fun t => lbThenSpace "FL" t || containsS t "FLUORO", "Fluoroscopy"),
  (fun t => containsLB t "MAMMO" || containsS t "BREAST", "Mammography"),
  (fun t => containsW t "ECHO", "Echocardiography")]

/-! ## Code classifier (`app.py` lines 173–201, 235–279) -/

/-- Python `any(x in desc_upper for x in needles)` (plain substrings). -/
def plainInAny (du : List Char) (needles : List String) : Bool :=
  needles.any (fun n => containsS du n)

/-- Body of `modality_from_examcode` (lines 180–199) on the uppercased,
stripped code. -/
def mFromCodeCore (code : List Char) (exam_desc : String) : String :=
  match firstMatch MODALITY_PATTERNS code with
  | none => "Other"
  | some m =>
    if m = "Nuclear Medicine" ∧ startsW code "Z" ∧ exam_desc ≠ "" then
      if nmKeywordHit (upL exam_desc.toList) ∧
          ¬ plainInAny (upL exam_desc.toList)
              ["CT SCAN", "MRI SCAN", "MR SCAN", "US SCAN", "ULTRASOUND SCAN"] then
        "Nuclear Medicine"
      else if hnKwHit (upL exam_desc.toList) ∧
          plainInAny (upL exam_desc.toList)
            ["PROCEDURE", "SCAN", "INJECTION", "STUDY", "IMAGING", "RADIOACTIVE"] ∧
          ¬ plainInAny (upL exam_desc.toList)
              ["CT", "MRI", "MR ", "US ", "ULTRASOUND", "XR ", "X-RAY",
               "BIOPSY", "ASPIRATION", "DRAINAGE", "CATHETER", "STENT"] then
        "Nuclear Medicine"
      else m
    else m

/-- `modality_from_examcode` (lines 173–201).  `none` models a NaN exam
code; the empty string is the Python falsy-string check. -/
def modality_from_examcode (examcode : Option String) (exam_desc : String) : String :=
  match examcode with
  | none => "Other"
  | some ec =>
    if ec = "" then "Other"
    else mFromCodeCore (stripL (upL ec.toList)) exam_desc

/-- `region_ct` (lines 408–415): plain substring checks on the already
uppercased text. -/
def region_ct (t : List Char) : String :=
  if containsS t "CHEST" ∧ (containsS t "ABDOMEN" ∨ containsS t "PELVIS") then "Chest/Abdomen/Pelvis"
  else if containsS t "ABDOMEN" ∧ containsS t "PELVIS" then "Abdomen/Pelvis"
  else if containsS t "CHEST" then "Chest"
  else if containsS t "ABDOMEN" then "Abdomen"
  else if containsS t "PELVIS" then "Pelvis"
  else "Other"

/-! ## Description classifier (`app.py` lines 360–532) -/

/-- Exclusion regex of line 373,
`\b(?:CT|MRI|MR\s+|US\s+|ULTRASOUND|XR\s+|X-RAY)\s+SCAN`: the grouped
`\s+` alternatives are followed by the outer `\s+`, so those need at
least two whitespace characters before `SCAN`. -/
def modScanExcl (t : List Char) : Bool :=
  (scanOccs "CT".toList true false none t).any (spacePlusPrefix "SCAN") ||
  (scanOccs "MRI".toList true false none t).any (spacePlusPrefix "SCAN") ||
  (scanOccs "MR".toList true false none t).any (twoSpacesThen "SCAN") ||
  (scanOccs "US".toList true false none t).any (twoSpacesThen "SCAN") ||
  (scanOccs "ULTRASOUND".toList true false none t).any (spacePlusPrefix "SCAN") ||
  (scanOccs "XR".toList true false none t).any (twoSpacesThen "SCAN") ||
  (scanOccs "X-RAY".toList true false none t).any (spacePlusPrefix "SCAN")

/-- Exclusion regex of line 379,
`\b(?:CT|MRI|MR\s+|US\s+|ULTRASOUND|XR\s+|X-RAY|BIOPSY|ASPIRATION|DRAINAGE)\b`:
after a `\s+` alternative, the closing `\b` holds only when a word
character follows the run of whitespace. -/
def wordExcl1 (t : List Char) : Bool :=
  containsW t "CT" || containsW t "MRI" || lbThenSpacesWord "MR" t ||
  lbThenSpacesWord "US" t || containsW t "ULTRASOUND" || lbThenSpacesWord "XR" t ||
  containsW t "X-RAY" || containsW t "BIOPSY" || containsW t "ASPIRATION" ||
  containsW t "DRAINAGE"

/-- Exclusion regex of line 385 (the previous one with `CATHETER` and
`STENT` added). -/
def wordExcl2 (t : List Char) : Bool :=
  containsW t "CT" || containsW t "MRI" || lbThenSpacesWord "MR" t ||
  lbThenSpacesWord "US" t || containsW t "ULTRASOUND" || lbThenSpacesWord "XR" t ||
  containsW t "X-RAY" || containsW t "BIOPSY" || containsW t "ASPIRATION" ||
  containsW t "DRAINAGE" || containsW t "CATHETER" || containsW t "STENT"

/-- Line 377: `INJECTION|RADIOACTIVE|RADIONUCLIDE`. -/
def injRadKw (t : List Char) : Bool :=
  containsS t "INJECTION" || containsS t "RADIOACTIVE" || containsS t "RADIONUCLIDE"

/-- Line 378: `SCAN|PROCEDURE|STUDY|IMAGING`. -/
def procKwA (t : List Char) : Bool :=
  containsS t "SCAN" || containsS t "PROCEDURE" || containsS t "STUDY" || containsS t "IMAGING"

/-- Line 384: `PROCEDURE|SCAN|INJECTION|STUDY|IMAGING|RADIOACTIVE`. -/
def procKwB (t : List Char) : Bool :=
  containsS t "PROCEDURE" || containsS t "SCAN" || containsS t "INJECTION" ||
  containsS t "STUDY" || containsS t "IMAGING" || containsS t "RADIOACTIVE"

/-- Whole-word body-part list of the X-ray fallback (line 389). -/
def XRAY_BODY_WORDS : List String :=
  ["CHEST", "ABDOMEN", "KNEE", "HAND", "FOOT", "SHOULDER", "ELBOW", "ANKLE", "WRIST",
   "HIP", "FEMUR", "TIBIA", "HUMERUS", "FINGER", "TOE", "SPINE", "PELVIS", "CLAVICLE",
   "RIBS", "SINUS", "TEMPORAL", "FACIAL", "ORBITS", "SKULL", "SACRUM", "COCCYX"]

/-- Line 389 fallback regex (a group of whole words). -/
def xrayBodyWord (t : List Char) : Bool := XRAY_BODY_WORDS.any (fun w => containsW t w)

/-- `invasive_patterns` (line 393). -/
def invasiveKw (t : List Char) : Bool :=
  containsS t "BIOPSY" || containsS t "ASPIRATION" || containsS t "DRAINAGE" ||
  containsS t "CATHETERIZATION" || seqPlainSp "STENT" "PLACEMENT" t

/-- `nm_indicators` (line 394). -/
def nmIndicatorKw (t : List Char) : Bool :=
  containsS t "SCAN" || containsS t "INJECTION" || containsS t "RADIOACTIVE" ||
  containsS t "RADIONUCLIDE" || containsS t "NUCLEAR"

/-- Body of `modality_from_desc` (lines 360–400) on the uppercased text.
The nested `if ... : if ... : return` fallthroughs of the source flatten
to a single first-match chain. -/
def mFromDescCore (t : List Char) : String :=
  match firstMatch DESC_MODALITY_PATTERNS t with
  | some m => m
  | none =>
    if nmKeywordHit t ∧ ¬ modScanExcl t then "Nuclear Medicine"
    else if injRadKw t ∧ procKwA t ∧ ¬ wordExcl1 t then "Nuclear Medicine"
    else if hnKwHit t ∧ procKwB t ∧ ¬ wordExcl2 t then "Nuclear Medicine"
    else if xrayBodyWord t then "Radiography"
    else if invasiveKw t ∧ ¬ nmIndicatorKw t then "Invasive"
    else "Other"

/-- `modality_from_desc` (lines 360–400). -/
def modality_from_desc (s : String) : String := mFromDescCore (upL s.toList)

/-- The three 3-region word-order regexes of lines 458–460 (`CHEST|CH`,
then `ABDOMEN|AB`, then `PELVIS|PE` as whole words, in the three cyclic
orders the source checks). -/
def capWordAny (t : List Char) : Bool :=
  seq3W ["CHEST", "CH"] ["ABDOMEN", "AB"] ["PELVIS", "PE"] t ||
  seq3W ["ABDOMEN", "AB"] ["PELVIS", "PE"] ["CHEST", "CH"] t ||
  seq3W ["PELVIS", "PE"] ["CHEST", "CH"] ["ABDOMEN", "AB"] t

/-- The two 2-region word-order regexes of lines 463–464. -/
def apWordAny (t : List Char) : Bool :=
  seq2W ["ABDOMEN", "ABDOMINAL", "AB"] ["PELVIS", "PELVIC", "PE"] t ||
  seq2W ["PELVIS", "PELVIC", "PE"] ["ABDOMEN", "ABDOMINAL", "AB"] t

/-- Nuclear-medicine region inference (lines 471–487), reached when no
body-part pattern matched. -/
def nmInfer (t : List Char) : List String :=
  if containsLB t "RENAL" ∨ containsS t "KIDNEY" ∨ containsRB t "MAG3" then ["Renal"]
  else if containsLB t "LUNG" ∨ containsS t "VENT" ∨ containsRB t "PERF" then ["Chest"]
  else if containsLB t "BONE SCAN" ∨ containsRB t "3 PHASE BONE" then ["Whole Body"]
  else if containsLB t "HEPATOBILIARY" ∨ containsS t "HIDA" ∨ containsS t "LIVER" ∨
      containsRB t "SPLEEN" then
    (if containsS t "SPLEEN" then ["Liver", "Spleen"] else ["Liver"])
  else if containsLB t "GASTRIC EMPTYING" ∨ containsRB t "STOMACH" then ["Stomach"]
  else if containsLB t "BARIUM SWALLOW" ∨ containsRB t "ESOPHAGUS" then ["Stomach"]
  else []

/-- `SKULL.*THIGH|SKULL.*MID` (line 490). -/
def skullRange (t : List Char) : Bool :=
  seqPlain "SKULL" "THIGH" t ∨ seqPlain "SKULL" "MID" t

/-- Python substring test between two of the collected names (used with
`any("Pelvis" in f ... for f in found)`)- -/
def strHas (s n : String) : Bool := containsS s.toList n

/-- The CT fallback block of lines 495–515: either returns a combination
label outright (`Sum.inl`) or adjusts the collected list (`Sum.inr`). -/
def ctAdjust (t : List Char) (found : List String) : Sum String (List String) :=
  if containsS t "CT" then
    if region_ct t = "Chest/Abdomen/Pelvis" then Sum.inl "Chest, Abdomen, Pelvis"
    else if region_ct t = "Abdomen/Pelvis" then Sum.inl "Abdomen, Pelvis"
    else if region_ct t = "Chest" then
      Sum.inr (if found = [] ∨ ¬ found.contains "Chest" then ["Chest"] else found)
    else if region_ct t = "Abdomen" then
      Sum.inr (if ¬ found.any (fun f => strHas f "Pelvis" || strHas f "Abdomen, Pelvis")
               then ["Abdomen"] else found)
    else if region_ct t = "Pelvis" then
      Sum.inr (if ¬ found.any (fun f => strHas f "Abdomen" || strHas f "Abdomen, Pelvis")
               then ["Pelvis"] else found)
    else Sum.inr found
  else Sum.inr found

/-- Final common-term fallback of lines 518–524. -/
def finalFallback (t : List Char) : List String :=
  if containsS t "CHEST" then ["Chest"]
  else if containsW t "SCAN" ∧ (containsS t "WHOLE" ∨ containsS t "BODY") then ["Whole Body"]
  else if containsS t "PORTACATH" ∨ containsS t "ACCESS" then ["Vascular"]
  else []

/-- Tail of `body_parts_from_desc` (lines 517–532): final fallback,
first-seen deduplication and comma join, `"Unknown"` when empty. -/
def bpFinish (t : List Char) (found : List String) : String :=
  if dedupStr (if found = [] then finalFallback t else found) = [] then "Unknown"
  else joinComma (dedupStr (if found = [] then finalFallback t else found))

/-- The `found` list after the body-part pattern scan of line 468. -/
def bpFound0 (t : List Char) : List String :=
  (BODY_PART_PATTERNS.filter (fun p => p.2 t)).map Prod.fst

/-- The `found` list after the nuclear-medicine inference of
lines 471–487. -/
def bpFound1 (t : List Char) : List String :=
  if bpFound0 t = [] then nmInfer t else bpFound0 t

/-- The `found` list after the PET skull-to-thigh range check of
lines 490–491. -/
def bpFound2 (t : List Char) : List String :=
  if skullRange t ∧ bpFound1 t = [] then ["Whole Body"] else bpFound1 t

/-- Body of `body_parts_from_desc` (lines 444–532) on the uppercased
text. -/
def bpCore (t : List Char) : String :=
  if containsS t "CT" ∧ region_ct t = "Chest/Abdomen/Pelvis" then "Chest, Abdomen, Pelvis"
  else if containsS t "CT" ∧ region_ct t = "Abdomen/Pelvis" then "Abdomen, Pelvis"
  else if capWordAny t then "Chest, Abdomen, Pelvis"
  else if apWordAny t then "Abdomen, Pelvis"
  else
    match ctAdjust t (bpFound2 t) with
    | Sum.inl r => r
    | Sum.inr found3 => bpFinish t found3

/-- `body_parts_from_desc` (lines 444–532). -/
def body_parts_from_desc (s : String) : String := bpCore (upL s.toList)

/-- The `z_body_patterns` table of lines 268–273, searched on the
uppercased description. -/
def Z_BODY_PATTERNS : List ((List Char → Bool) × String) := [
  (fun d => seqPlainSp "BONE" "SCAN" d ||
      (occSuffixes "3" d).any (spacePlusThenSeq "PHASE" "BONE"), "Whole Body"),
  (fun d => containsS d "HIDA" || containsS d "HEPATOBILIARY", "Liver"),
  (fun d => containsS d "RENAL" || containsS d "MAG3", "Renal"),
  (fun d => containsS d "GASTRIC", "Stomach")]

/-- Body of `body_part_from_examcode` (lines 240–279) on the
uppercased, stripped code: CT codes consult the description for
multi-region combinations before (and again inside) the code-pattern
table; Z codes consult a description table; otherwise fall back to
`body_parts_from_desc` when a description is present. -/
def bpFromCodeCore (code : List Char) (exam_desc : String) : String :=
  if startsW code "CT" ∧ exam_desc ≠ "" ∧
      region_ct (upL exam_desc.toList) = "Chest/Abdomen/Pelvis" then
    "Chest, Abdomen, Pelvis"
  else if startsW code "CT" ∧ exam_desc ≠ "" ∧
      region_ct (upL exam_desc.toList) = "Abdomen/Pelvis" then
    "Abdomen, Pelvis"
  else
    match firstMatch BODY_PART_CODE_PATTERNS code with
    | some bp =>
      if startsW code "CT" ∧ exam_desc ≠ "" ∧
          region_ct (upL exam_desc.toList) = "Chest/Abdomen/Pelvis" then
        "Chest, Abdomen, Pelvis"
      else if startsW code "CT" ∧ exam_desc ≠ "" ∧
          region_ct (upL exam_desc.toList) = "Abdomen/Pelvis" then
        "Abdomen, Pelvis"
      else bp
    | none =>
      if startsW code "Z" ∧ exam_desc ≠ "" then
        match firstMatch Z_BODY_PATTERNS (upL exam_desc.toList) with
        | some bp => bp
        | none => if exam_desc = "" then "Unknown" else body_parts_from_desc exam_desc
      else if exam_desc = "" then "Unknown" else body_parts_from_desc exam_desc

/-- `body_part_from_examcode` (lines 235–279). -/
def body_part_from_examcode (examcode : Option String) (exam_desc : String) : String :=
  match examcode with
  | none => if exam_desc = "" then "Unknown" else body_parts_from_desc exam_desc
  | some ec =>
    if ec = "" then (if exam_desc = "" then "Unknown" else body_parts_from_desc exam_desc)
    else bpFromCodeCore (stripL (upL ec.toList)) exam_desc

/-! ## Contrast and naming composer (`app.py` lines 281–322, 402–442) -/

/-- Second alternative `W/.*AND.*W/O` of the first contrast regex. -/
def wSlashSeq (t : List Char) : Bool :=
  (occSuffixes "W/" t).any (fun s =>
    (occSuffixes "AND" s).any (fun s2 => containsS s2 "W/O"))

/-- The `\bW/\b` alternative: the boundary after the slash (a non-word
character) holds only when a word character follows immediately. -/
def wSlashWord (t : List Char) : Bool :=
  (scanOccs "W/".toList true false none t).any (fun s =>
    match s with
    | [] => false
    | c :: _ => isWordChar c)

/-- `contrast_phrase` (lines 402–406) on the uppercased text.
`WITH( AND)? WITHOUT` is the two literal substrings. -/
def contrast_phrase (t : List Char) : String :=
  if containsS t "WITH WITHOUT" ∨ containsS t "WITH AND WITHOUT" ∨ wSlashSeq t then
    "w/ and w/o Contrast"
  else if containsW t "WITHOUT" ∨ containsW t "W/O" then "w/o Contrast"
  else if containsW t "WITH" ∨ wSlashWord t then "w/ Contrast"
  else ""

/-- `is_angiography_or_venogram` (lines 281–298). -/
def is_angiography_or_venogram (modality : String) (exam_desc : String) : Bool :=
  ["CTA", "MRA", "MRV", "CTV"].contains modality ||
  (let du := upL exam_desc.toList
   containsS du "ANGIOGRAPHY" || containsS du "ANGIOGRAM" || containsS du "VENOGRAPHY" ||
   containsS du "VENOGRAM" || containsS du "ARTERIOGRAPHY" || containsS du "ARTERIOGRAM")

/-- The whitespace-normalised uppercase text `t` of `exam_from_desc`
(line 423). -/
def descNorm (s : String) : List Char := normWS (upL s.toList)

/-- The modality variable of `exam_from_desc` (line 424):
`modality_from_desc(t)` uppercases its argument again. -/
def descModality (s : String) : String := mFromDescCore (upL (descNorm s))

/-- The body-part variable of `exam_from_desc` (lines 427–429), with
`"Unknown"` replaced by `"Other"`. -/
def descBodyOr (s : String) : String :=
  let bp := bpCore (upL (descNorm s))
  if bp = "Unknown" then "Other" else bp

/-- The angiography flag of `exam_from_desc` (line 432), computed from
the derived modality and the raw description. -/
def descAngio (s : String) : Bool := is_angiography_or_venogram (descModality s) s

/-- `exam_from_desc` (lines 417–442). -/
def exam_from_desc (s : String) : String :=
  let t := descNorm s
  let mod := descModality s
  let body_part := descBodyOr s
  let con := if descAngio s then contrast_phrase t else ""
  if mod = "Radiography" then "Radiography " ++ body_part
  else if con ≠ "" then mod ++ " " ++ body_part ++ " " ++ con
  else mod ++ " " ++ body_part

/-- `exam_from_examcode` (lines 300–322). -/
def exam_from_examcode (examcode : Option String) (exam_desc : String) : String :=
  match examcode with
  | none => if exam_desc = "" then "Other" else exam_from_desc exam_desc
  | some ec =>
    if ec = "" then (if exam_desc = "" then "Other" else exam_from_desc exam_desc)
    else
      let modality := modality_from_examcode (some ec) exam_desc
      let body_part := body_part_from_examcode (some ec) exam_desc
      let is_angio := is_angiography_or_venogram modality exam_desc
      let con := contrast_phrase (upL exam_desc.toList)
      if is_angio ∧ exam_desc ≠ "" ∧ con ≠ "" then
        modality ++ " " ++ body_part ++ " " ++ con
      else modality ++ " " ++ body_part

/-! ## Enrichment pipeline (`app.py` lines 64–121) -/

/-- One input row after ingestion: dictation timestamp, exam
description, optional exam code (`none` models a NaN cell) and the wRVU
value (both numeric fields are opaque to classification). -/
structure RawRecord where
  dttm : Int
  desc : String
  code : Option String
  wrvu : Int
deriving Repr, DecidableEq

/-- A row of the enriched dataframe: the raw row plus the three columns
added by `process_dataframe`. -/
structure EnrichedRecord where
  raw : RawRecord
  modality : String
  bodyPart : String
  exam : String
deriving Repr, DecidableEq

/-- The `Modality` column dispatch of lines 94–98: code classifier when
the cell is not NaN, description classifier otherwise. -/
def pipeModality (code : Option String) (desc : String) : String :=
  match code with
  | none => modality_from_desc desc
  | some c => modality_from_examcode (some c) desc

/-- The `Body Part` column dispatch of lines 104–108. -/
def pipeBody (code : Option String) (desc : String) : String :=
  match code with
  | none => body_parts_from_desc desc
  | some c => body_part_from_examcode (some c) desc

/-- The `Exam` column dispatch of lines 99–103. -/
def pipeExam (code : Option String) (desc : String) : String :=
  match code with
  | none => exam_from_desc desc
  | some c => exam_from_examcode (some c) desc

/-- Per-record enrichment: the three classification columns attached to
a row. -/
def enrich (r : RawRecord) : EnrichedRecord :=
  { raw := r,
    modality := pipeModality r.code r.desc,
    bodyPart := pipeBody r.code r.desc,
    exam := pipeExam r.code r.desc }

/-- Row-wise enrichment of a batch (the three `df.apply(..., axis=1)`
calls of lines 94–108). -/
def enrichBatch (rs : List RawRecord) : List EnrichedRecord := rs.map enrich

/-- Column normalisation of lines 68–74: each raw column name is mapped
through the case-insensitive substring rules, later rules overriding
earlier ones. -/
def normalizeCol (c : String) : String :=
  let k := stripL (lowL c.toList)
  let r0 := c
  let r1 := if containsS k "dttm" then "DICTATION DTTM" else r0
  let r2 := if containsS k "exam" ∧ containsS k "desc" then "EXAM DESC" else r1
  let r3 := if containsS k "wrvu" then "WRVU ESTIMATE" else r2
  if containsS k "examcode" ∨ containsS k "exam code" then "EXAMCODE" else r3

/-- The three mandatory columns of line 77. -/
def REQUIRED_COLS : List String := ["DICTATION DTTM", "EXAM DESC", "WRVU ESTIMATE"]

/-- The mandatory columns absent from the normalised header (line 78).
`REQUIRED_COLS` is alphabetically ordered, so filtering it reproduces
the `sorted(missing)` of the error message. -/
def missingCols (cols : List String) : List String :=
  REQUIRED_COLS.filter (fun n => !(cols.map normalizeCol).contains n)

/-- `process_dataframe` (lines 64–121) restricted to what the claims
need: the schema check of lines 76–80 (the raised `ValueError` becomes
`Except.error` carrying the sorted missing names) followed by row-wise
enrichment.  Dropping rows with unparseable timestamp or value happens
upstream of classification and is not modelled. -/
def process_dataframe (cols : List String) (records : List RawRecord) :
    Except (List String) (List EnrichedRecord) :=
  if missingCols cols ≠ [] then Except.error (missingCols cols)
  else Except.ok (enrichBatch records)

/-! ## Closed label sets and well-formed region values -/

/-- The closed modality label set: every string the two modality
classifiers can emit. -/
def MODALITY_LABELS : List String :=
  ["CT", "CTA", "CTV", "MRI", "MRA", "MRV", "Radiography", "Fluoroscopy",
   "Nuclear Medicine", "PET", "PET/CT", "US", "Mammography", "Echocardiography",
   "Invasive", "Other"]

/-- The closed body-region label set. -/
def REGION_LABELS : List String :=
  ["Head/Neck", "Chest", "Abdomen", "Pelvis", "Spine", "Upper Extremity",
   "Lower Extremity", "Breast", "Renal", "Cardiac", "Vascular", "Liver",
   "Spleen", "Stomach", "Whole Body", "Unknown"]

/-- A region value is well formed when it is the comma join of a
non-empty, duplicate-free, first-seen-ordered list of closed region
labels (a single label is the singleton join). -/
def ValidRegions (r : String) : Prop :=
  ∃ l : List String, l ≠ [] ∧ l.Nodup ∧ (∀ x ∈ l, x ∈ REGION_LABELS) ∧ r = joinComma l

theorem validRegions_single {r : String} (h : r ∈ REGION_LABELS) : ValidRegions r :=
  ⟨[r], by simp, List.nodup_singleton r, by simpa using h, rfl⟩

theorem validRegions_cap : ValidRegions "Chest, Abdomen, Pelvis" :=
  ⟨["Chest", "Abdomen", "Pelvis"], by simp, by decide, by decide, by decide⟩

theorem validRegions_ap : ValidRegions "Abdomen, Pelvis" :=
  ⟨["Abdomen", "Pelvis"], by simp, by decide, by decide, by decide⟩

/-! ## Structural lemmas about rule tables and deduplication -/

theorem firstMatch_some_mem {rules : List ((List Char → Bool) × String)} {t : List Char}
    {m : String} (h : firstMatch rules t = some m) : m ∈ rules.map Prod.snd := by
  induction rules with
  | nil => simp [firstMatch] at h
  | cons r rs ih =>
    by_cases hc : r.1 t
    · simp [firstMatch, hc] at h
      simp [h]
    · simp [firstMatch, hc] at h
      simp [ih h]

theorem firstMatch_none_of_all {rules : List ((List Char → Bool) × String)} {t : List Char}
    (h : rules.all (fun p => !(p.1 t)) = true) : firstMatch rules t = none := by
  induction rules with
  | nil => rfl
  | cons r rs ih =>
    simp only [List.all_cons, Bool.and_eq_true, Bool.not_eq_true'] at h
    simp [firstMatch, h.1, ih (by simpa using h.2)]

theorem dedupAux_sub (l : List String) :
    ∀ (seen : List String), ∀ x ∈ dedupAux seen l, x ∈ l := by
  induction l with
  | nil => intro seen x hx; simp [dedupAux] at hx
  | cons y ys ih =>
    intro seen x hx
    rw [dedupAux] at hx
    split at hx
    · exact List.mem_cons_of_mem _ (ih seen x hx)
    · rcases List.mem_cons.mp hx with h | h
      · simp [h]
      · exact List.mem_cons_of_mem _ (ih (y :: seen) x h)

theorem dedupAux_not_mem (l : List String) :
    ∀ (seen : List String), ∀ x ∈ seen, x ∉ dedupAux seen l := by
  induction l with
  | nil => intro seen x _ hx; simp [dedupAux] at hx
  | cons y ys ih =>
    intro seen x hxs hx
    rw [dedupAux] at hx
    split at hx
    · exact ih seen x hxs hx
    · next hc =>
        rcases List.mem_cons.mp hx with h | h
        · subst h
          exact hc (by simpa using hxs)
        · exact ih (y :: seen) x (List.mem_cons_of_mem _ hxs) h

theorem dedupAux_nodup (l : List String) : ∀ (seen : List String), (dedupAux seen l).Nodup := by
  induction l with
  | nil => intro seen; simp [dedupAux]
  | cons y ys ih =>
    intro seen
    rw [dedupAux]
    split
    · exact ih seen
    · exact List.nodup_cons.mpr ⟨dedupAux_not_mem ys (y :: seen) y (by simp), ih (y :: seen)⟩

theorem dedupStr_subset (l : List String) : ∀ x ∈ dedupStr l, x ∈ l :=
  dedupAux_sub l []

theorem dedupStr_nodup (l : List String) : (dedupStr l).Nodup :=
  dedupAux_nodup l []

theorem firstMatch_cons_false {p : (List Char → Bool) × String}
    {rules : List ((List Char → Bool) × String)} {t : List Char} (h : p.1 t = false) :
    firstMatch (p :: rules) t = firstMatch rules t := by
  simp [firstMatch, h]

theorem firstMatch_cons_true {p : (List Char → Bool) × String}
    {rules : List ((List Char → Bool) × String)} {t : List Char} (h : p.1 t = true) :
    firstMatch (p :: rules) t = some p.2 := by
  simp [firstMatch, h]

theorem isPre_head_false {a x : Char} {n2 as : List Char} (h : (a == x) = false) :
    isPre (a :: n2) (x :: as) = false := by
  simp [isPre, h]

/-! ## Every region the description extractor emits is well formed -/

theorem bodyPatternNames_sub {t : List Char} : ∀ x ∈ bpFound0 t, x ∈ REGION_LABELS := by
  intro x hx
  rcases List.mem_map.mp hx with ⟨p, hp, rfl⟩
  have hmem : p ∈ BODY_PART_PATTERNS := List.mem_of_mem_filter hp
  have hall : ∀ y ∈ BODY_PART_PATTERNS.map Prod.fst, y ∈ REGION_LABELS := by decide
  exact hall _ (List.mem_map_of_mem Prod.fst hmem)

theorem nmInfer_sub (t : List Char) : ∀ x ∈ nmInfer t, x ∈ REGION_LABELS := by
  intro x hx
  unfold nmInfer at hx
  repeat' split at hx
  all_goals simp_all
  all_goals (rcases hx with rfl | rfl) <;> decide

theorem finalFallback_sub (t : List Char) : ∀ x ∈ finalFallback t, x ∈ REGION_LABELS := by
  intro x hx
  unfold finalFallback at hx
  repeat' split at hx
  all_goals simp_all
  all_goals decide

theorem bpFound2_sub (t : List Char) : ∀ x ∈ bpFound2 t, x ∈ REGION_LABELS := by
  have h1 : ∀ x ∈ bpFound1 t, x ∈ REGION_LABELS := by
    unfold bpFound1
    split
    · exact nmInfer_sub t
    · exact bodyPatternNames_sub
  unfold bpFound2
  split
  · intro x hx
    rw [List.mem_singleton] at hx
    subst hx
    decide
  · exact h1

theorem bpFinish_valid (t : List Char) (found : List String)
    (hf : ∀ x ∈ found, x ∈ REGION_LABELS) : ValidRegions (bpFinish t found) := by
  have hf4 : ∀ x ∈ (if found = [] then finalFallback t else found), x ∈ REGION_LABELS := by
    split
    · exact finalFallback_sub t
    · exact hf
  unfold bpFinish
  by_cases hd : dedupStr (if found = [] then finalFallback t else found) = []
  · rw [if_pos hd]
    exact validRegions_single (by decide)
  · rw [if_neg hd]
    exact ⟨_, hd, dedupStr_nodup _, fun x hx => hf4 x (dedupStr_subset _ x hx), rfl⟩

theorem ctAdjust_inl {t : List Char} {found : List String} {r : String}
    (h : ctAdjust t found = Sum.inl r) :
    r = "Chest, Abdomen, Pelvis" ∨ r = "Abdomen, Pelvis" := by
  unfold ctAdjust at h
  repeat' split at h
  all_goals simp_all

theorem ctAdjust_inr {t : List Char} {found : List String} {l : List String}
    (h : ctAdjust t found = Sum.inr l) (hf : ∀ x ∈ found, x ∈ REGION_LABELS) :
    ∀ x ∈ l, x ∈ REGION_LABELS := by
  unfold ctAdjust at h
  repeat' split at h
  all_goals first
    | (injection h with h; subst h; exact hf)
    | (injection h with h; subst h; intro x hx; rw [List.mem_singleton] at hx; subst hx; decide)
    | injection h

theorem bpCore_valid (t : List Char) : ValidRegions (bpCore t) := by
  unfold bpCore
  split
  · exact validRegions_cap
  · split
    · exact validRegions_ap
    · split
      · exact validRegions_cap
      · split
        · exact validRegions_ap
        · rcases hA : ctAdjust t (bpFound2 t) with r | l
          · rcases ctAdjust_inl hA with rfl | rfl
            · exact validRegions_cap
            · exact validRegions_ap
          · exact bpFinish_valid t l (ctAdjust_inr hA (bpFound2_sub t))

/-! ## Every modality the classifiers emit belongs to the closed set -/

theorem mFromDescCore_mem (t : List Char) : mFromDescCore t ∈ MODALITY_LABELS := by
  have hall : ∀ y ∈ DESC_MODALITY_PATTERNS.map Prod.snd, y ∈ MODALITY_LABELS := by decide
  unfold mFromDescCore
  split
  · next m h => exact hall _ (firstMatch_some_mem h)
  · repeat' split
    all_goals decide

theorem mFromCodeCore_mem (code : List Char) (d : String) :
    mFromCodeCore code d ∈ MODALITY_LABELS := by
  have hall : ∀ y ∈ MODALITY_PATTERNS.map Prod.snd, y ∈ MODALITY_LABELS := by decide
  unfold mFromCodeCore
  split
  · decide
  · next m h =>
      have hm := hall _ (firstMatch_some_mem h)
      repeat' split
      all_goals first | decide | exact hm

theorem modality_from_examcode_mem (c : Option String) (d : String) :
    modality_from_examcode c d ∈ MODALITY_LABELS := by
  cases c with
  | none =>
    show "Other" ∈ MODALITY_LABELS
    decide
  | some ec =>
    show (if ec = "" then "Other" else mFromCodeCore (stripL (upL ec.toList)) d) ∈
      MODALITY_LABELS
    split
    · decide
    · exact mFromCodeCore_mem _ d

theorem bpFromCodeCore_valid (code : List Char) (d : String) :
    ValidRegions (bpFromCodeCore code d) := by
  have hdesc : ValidRegions (if d = "" then "Unknown" else body_parts_from_desc d) := by
    split
    · exact validRegions_single (by decide)
    · exact bpCore_valid _
  unfold bpFromCodeCore
  split
  · exact validRegions_cap
  · split
    · exact validRegions_ap
    · split
      · next bp h =>
          have hall : ∀ y ∈ BODY_PART_CODE_PATTERNS.map Prod.snd,
              y ∈ REGION_LABELS ∨ y = "Chest, Abdomen, Pelvis" ∨ y = "Abdomen, Pelvis" := by
            decide
          rcases hall _ (firstMatch_some_mem h) with hbp | rfl | rfl
          · exact validRegions_single hbp
          · exact validRegions_cap
          · exact validRegions_ap
      · split
        · split
          · next bp hz =>
              have hall : ∀ y ∈ Z_BODY_PATTERNS.map Prod.snd, y ∈ REGION_LABELS := by decide
              exact validRegions_single (hall _ (firstMatch_some_mem hz))
          · exact hdesc
        · exact hdesc

theorem body_part_from_examcode_valid (c : Option String) (d : String) :
    ValidRegions (body_part_from_examcode c d) := by
  have hdesc : ValidRegions (if d = "" then "Unknown" else body_parts_from_desc d) := by
    split
    · exact validRegions_single (by decide)
    · exact bpCore_valid _
  cases c with
  | none => exact hdesc
  | some ec =>
    show ValidRegions (if ec = "" then (if d = "" then "Unknown" else body_parts_from_desc d)
      else bpFromCodeCore (stripL (upL ec.toList)) d)
    split
    · exact hdesc
    · exact bpFromCodeCore_valid _ d

/-! ## Claim C1: three-region detection and order independence -/

/-- C1 counterexample: the description `"CHEST PELVIS ABDOMEN"` contains
the words CHEST, ABDOMEN and PELVIS, yet `body_parts_from_desc` returns
the subset `"Abdomen, Pelvis"`, not `"Chest, Abdomen, Pelvis"`: the
order-of-appearance regexes of lines 458–460 only cover three of the six
word orders, and none of them (nor the `"CT"` fast path) matches this
description, while the two-region check of lines 463–464 does. -/
theorem claim1_counterexample :
    containsS (upL "CHEST PELVIS ABDOMEN".toList) "CHEST" = true ∧
    containsS (upL "CHEST PELVIS ABDOMEN".toList) "ABDOMEN" = true ∧
    containsS (upL "CHEST PELVIS ABDOMEN".toList) "PELVIS" = true ∧
    body_parts_from_desc "CHEST PELVIS ABDOMEN" = "Abdomen, Pelvis" ∧
    body_parts_from_desc "CHEST PELVIS ABDOMEN" ≠ "Chest, Abdomen, Pelvis" := by
  refine ⟨by decide, by decide, by decide, by decide, by decide⟩

/-- C1 (amended): for every description that contains the substring
`"CT"` together with the words CHEST, ABDOMEN and PELVIS — in any order
of appearance — region resolution returns exactly
`"Chest, Abdomen, Pelvis"`, never a subset; without a `"CT"` mention the
order-independence only holds for the three checked word orders. -/
theorem claim1_amended_cap_requires_ct (s : String)
    (hct : containsS (upL s.toList) "CT" = true)
    (hch : containsS (upL s.toList) "CHEST" = true)
    (hab : containsS (upL s.toList) "ABDOMEN" = true)
    (hpe : containsS (upL s.toList) "PELVIS" = true) :
    body_parts_from_desc s = "Chest, Abdomen, Pelvis" := by
  have hr : region_ct (upL s.toList) = "Chest/Abdomen/Pelvis" := by
    unfold region_ct
    split
    · rfl
    · next hn => exact absurd ⟨hch, Or.inl hab⟩ hn
  unfold body_parts_from_desc bpCore
  split
  · rfl
  · next hn => exact absurd ⟨hct, hr⟩ hn

/-- C1 witness: the amended theorem applied to
`"CT CHEST ABDOMEN PELVIS"`. -/
theorem claim1_witness :
    containsS (upL "CT CHEST ABDOMEN PELVIS".toList) "CT" = true ∧
    body_parts_from_desc "CT CHEST ABDOMEN PELVIS" = "Chest, Abdomen, Pelvis" :=
  ⟨by decide,
   claim1_amended_cap_requires_ct "CT CHEST ABDOMEN PELVIS"
     (by decide) (by decide) (by decide) (by decide)⟩

/-! ## Claim C2: the Radiography exam-name prefix -/

/-- C2 counterexample: the record `(code = "RTKN", description = "")`
yields the exam name `"Radiography Lower Extremity"`, not
`"XR Lower Extremity"`; no composed exam name ever uses an `"XR"`
prefix (lines 438–439 and 322 write the modality string itself). -/
theorem claim2_counterexample :
    exam_from_examcode (some "RTKN") "" ≠ "XR Lower Extremity" := by decide

/-- C2 (amended): the composed exam name labels Radiography studies
with the modality string `"Radiography"` itself; enriching
`(code = "RTKN", description = "")` yields modality `"Radiography"`,
region `"Lower Extremity"`, and exam name
`"Radiography Lower Extremity"`. -/
theorem claim2_amended_radiography_label :
    modality_from_examcode (some "RTKN") "" = "Radiography" ∧
    body_part_from_examcode (some "RTKN") "" = "Lower Extremity" ∧
    exam_from_examcode (some "RTKN") "" = "Radiography Lower Extremity" := by
  refine ⟨by decide, by decide, by decide⟩

/-! ## Claim C3: dispatch for absent versus empty codes -/

/-- C3 counterexample: for a record with the empty-string code and
description `"CT CHEST"`, the pipeline modality is `"Other"` (the
falsy-code early return of line 175), not
`modality_from_desc "CT CHEST" = "CT"`: an empty string is not NaN, so
the pipeline still calls the code classifier, which does not fall back
to the description for the modality. -/
theorem claim3_counterexample :
    pipeModality (some "") "CT CHEST" ≠ modality_from_desc "CT CHEST" := by decide

/-- C3 (amended): a record whose code is absent (NaN) is classified
from the description alone, all three fields agreeing with the
description classifiers.  For a present but empty-string code, only the
region and exam name fall back to the description classifiers (and only
when the description is non-empty); the modality is `"Other"`
regardless of the description. -/
theorem claim3_amended_code_dispatch (d : String) :
    (pipeModality none d = modality_from_desc d ∧
     pipeBody none d = body_parts_from_desc d ∧
     pipeExam none d = exam_from_desc d) ∧
    (pipeModality (some "") d = "Other" ∧
     pipeBody (some "") d = (if d = "" then "Unknown" else body_parts_from_desc d) ∧
     pipeExam (some "") d = (if d = "" then "Other" else exam_from_desc d)) := by
  refine ⟨⟨rfl, rfl, rfl⟩, ⟨by simp [pipeModality, modality_from_examcode], ?_, ?_⟩⟩
  · simp [pipeBody, body_part_from_examcode]
  · simp [pipeExam, exam_from_examcode]

/-! ## Claim C4: what the CT-style combination check requires -/

/-- C4 counterexample: `"CT CHEST PELVIS"` mentions only chest and
pelvis terms — no abdomen term — yet `region_ct` returns the
three-region label (its first test is `CHEST and (ABDOMEN or PELVIS)`,
line 410) and `body_parts_from_desc` therefore returns
`"Chest, Abdomen, Pelvis"`. -/
theorem claim4_counterexample :
    containsS ("CT CHEST PELVIS".toList) "ABDOMEN" = false ∧
    region_ct ("CT CHEST PELVIS".toList) = "Chest/Abdomen/Pelvis" ∧
    body_parts_from_desc "CT CHEST PELVIS" = "Chest, Abdomen, Pelvis" := by
  refine ⟨by decide, by decide, by decide⟩

/-- C4 (amended): the CT-style combination check returns the
three-region label exactly for texts containing a chest term together
with an abdomen term or a pelvis term (or both), and the two-region
label for texts containing abdomen and pelvis terms without a chest
term. -/
theorem claim4_amended_region_ct (t : List Char) :
    (containsS t "CHEST" = true →
      (containsS t "ABDOMEN" = true ∨ containsS t "PELVIS" = true) →
      region_ct t = "Chest/Abdomen/Pelvis") ∧
    (containsS t "CHEST" = false → containsS t "ABDOMEN" = true →
      containsS t "PELVIS" = true → region_ct t = "Abdomen/Pelvis") := by
  constructor
  · intro h1 h2
    unfold region_ct
    rcases h2 with h2 | h2 <;> simp [h1, h2]
  · intro h1 h2 h3
    unfold region_ct
    simp [h1, h2, h3]

/-- C4 witness: the amended characterisation, with the three-region
part exercised on `"CHEST ABDOMEN"` and the two-region part on
`"ABDOMEN PELVIS"`. -/
theorem claim4_witness :
    region_ct ("CHEST ABDOMEN".toList) = "Chest/Abdomen/Pelvis" ∧
    region_ct ("ABDOMEN PELVIS".toList) = "Abdomen/Pelvis" :=
  ⟨(claim4_amended_region_ct ("CHEST ABDOMEN".toList)).1 (by decide) (Or.inl (by decide)),
   (claim4_amended_region_ct ("ABDOMEN PELVIS".toList)).2 (by decide) (by decide) (by decide)⟩

/-! ## Claim C5: contrast phrase only for angiography / venography -/

/-- C5: when a description is not an angiography or venography study
(`is_angiography_or_venogram` is false for its derived modality), the
composed exam name is exactly `modality ++ " " ++ region` with no
contrast phrase appended; for `"CT CHEST WITHOUT CONTRAST"` (modality
CT) the name is `"CT Chest"` with no contrast phrase, while for
`"CTA CHEST WITHOUT CONTRAST"` (modality CTA) it ends with
`"w/o Contrast"`. -/
theorem claim5_contrast_gating :
    (∀ s : String, descAngio s = false →
      exam_from_desc s = descModality s ++ " " ++ descBodyOr s) ∧
    descModality "CT CHEST WITHOUT CONTRAST" = "CT" ∧
    exam_from_desc "CT CHEST WITHOUT CONTRAST" = "CT Chest" ∧
    descModality "CTA CHEST WITHOUT CONTRAST" = "CTA" ∧
    exam_from_desc "CTA CHEST WITHOUT CONTRAST" = "CTA Chest w/o Contrast" := by
  refine ⟨?_, by decide, by decide, by decide, by decide⟩
  intro s h
  unfold exam_from_desc
  simp [h]
  intro hm
  rw [hm]
  rfl

/-- C5 witness: the gating direction applied to the concrete non-angio
description. -/
theorem claim5_witness :
    descAngio "CT CHEST WITHOUT CONTRAST" = false ∧
    exam_from_desc "CT CHEST WITHOUT CONTRAST" =
      descModality "CT CHEST WITHOUT CONTRAST" ++ " " ++ descBodyOr "CT CHEST WITHOUT CONTRAST" :=
  ⟨by decide, claim5_contrast_gating.1 "CT CHEST WITHOUT CONTRAST" (by decide)⟩

/-! ## Claim C6: totality and closed label sets -/

/-- C6: for every text input (and every optional code), the four
classifiers return a label in the closed modality set, respectively a
well-formed ordered set of closed body-region labels — never an
exception (the functions are total by construction) and never an
unmapped value; and `(code = none, description = "")` yields modality
`"Other"`, regions `"Unknown"`, exam name `"Other Other"`. -/
theorem claim6_totality :
    (∀ s : String, modality_from_desc s ∈ MODALITY_LABELS) ∧
    (∀ s : String, ValidRegions (body_parts_from_desc s)) ∧
    (∀ (c : Option String) (d : String), modality_from_examcode c d ∈ MODALITY_LABELS) ∧
    (∀ (c : Option String) (d : String), ValidRegions (body_part_from_examcode c d)) ∧
    (pipeModality none "" = "Other" ∧ pipeBody none "" = "Unknown" ∧
     pipeExam none "" = "Other Other") :=
  ⟨fun _ => mFromDescCore_mem _, fun _ => bpCore_valid _, modality_from_examcode_mem,
   body_part_from_examcode_valid, by decide, by decide, by decide⟩

/-! ## Claim C7: determinism and statelessness -/

/-- C7: the enriched tail is a pure function of `(code, description)` —
two records agreeing on code and description receive identical
modality, regions and exam name whatever their other fields — and batch
enrichment is an independent per-record map: a record's enrichment does
not depend on the records before or after it. -/
theorem claim7_determinism :
    (∀ r1 r2 : RawRecord, r1.code = r2.code → r1.desc = r2.desc →
      (enrich r1).modality = (enrich r2).modality ∧
      (enrich r1).bodyPart = (enrich r2).bodyPart ∧
      (enrich r1).exam = (enrich r2).exam) ∧
    (∀ (pre post : List RawRecord) (r : RawRecord),
      enrichBatch (pre ++ r :: post) = enrichBatch pre ++ enrich r :: enrichBatch post) := by
  constructor
  · intro r1 r2 hc hd
    refine ⟨?_, ?_, ?_⟩ <;> simp [enrich, hc, hd]
  · intro pre post r
    simp [enrichBatch]

/-- C7 witness: two records equal in code and description but different
in timestamp and value get the same classification tail. -/
theorem claim7_witness :
    (enrich ⟨0, "CT CHEST", none, 1⟩).modality = (enrich ⟨7, "CT CHEST", none, 3⟩).modality ∧
    (enrich ⟨0, "CT CHEST", none, 1⟩).bodyPart = (enrich ⟨7, "CT CHEST", none, 3⟩).bodyPart ∧
    (enrich ⟨0, "CT CHEST", none, 1⟩).exam = (enrich ⟨7, "CT CHEST", none, 3⟩).exam :=
  claim7_determinism.1 ⟨0, "CT CHEST", none, 1⟩ ⟨7, "CT CHEST", none, 3⟩ rfl rfl

/-! ## Claim C8: schema validation happens once, before enrichment -/

/-- C8: when the (normalised) input header lacks any of the three
mandatory columns, processing yields a single validation error that
lists every missing mandatory column name, and the result does not
depend on the records at all — no record is enriched. -/
theorem claim8_schema_validation (cols : List String) (rows rows2 : List RawRecord) :
    (missingCols cols ≠ [] → process_dataframe cols rows = Except.error (missingCols cols)) ∧
    (∀ n ∈ REQUIRED_COLS, n ∉ cols.map normalizeCol → n ∈ missingCols cols) ∧
    (missingCols cols ≠ [] → process_dataframe cols rows = process_dataframe cols rows2) := by
  refine ⟨fun h => ?_, fun n hn hnot => ?_, fun h => ?_⟩
  · simp [process_dataframe, h]
  · simp only [missingCols, List.mem_filter]
    refine ⟨hn, ?_⟩
    simpa using hnot
  · simp [process_dataframe, h]

/-- C8 witness: a header containing only an exam-description column is
missing the timestamp and value columns; the batch errors out with both
names listed, independently of the records supplied. -/
theorem claim8_witness :
    missingCols ["Exam Desc"] ≠ [] ∧
    process_dataframe ["Exam Desc"] [] = Except.error ["DICTATION DTTM", "WRVU ESTIMATE"] ∧
    "WRVU ESTIMATE" ∈ missingCols ["Exam Desc"] ∧
    process_dataframe ["Exam Desc"] [] = process_dataframe ["Exam Desc"] [⟨0, "", none, 0⟩] := by
  refine ⟨by decide, ?_, ?_, ?_⟩
  · rw [(claim8_schema_validation ["Exam Desc"] [] []).1 (by decide)]
    rw [show missingCols ["Exam Desc"] = ["DICTATION DTTM", "WRVU ESTIMATE"] from by decide]
  · exact (claim8_schema_validation ["Exam Desc"] [] []).2.1 _ (by decide) (by decide)
  · exact (claim8_schema_validation ["Exam Desc"] [] [⟨0, "", none, 0⟩]).2.2 (by decide)

/-! ## Claim C9: Z codes always classify as nuclear or PET imaging -/

/-- C9: for every exam code whose uppercased, stripped form begins with
`Z`, and every description, `modality_from_examcode` returns
`"PET/CT"`, `"PET"` or `"Nuclear Medicine"`; and when the code does not
match a PET pattern (no `PET` occurrence after the leading `Z`), the
result is `"Nuclear Medicine"` for every description — the
description-keyword checks inside the Z branch only ever confirm that
value. -/
theorem zCodeCore (rest : List Char) (d : String) :
    mFromCodeCore ('Z' :: rest) d ∈ (["PET/CT", "PET", "Nuclear Medicine"] : List String) ∧
    (containsS rest "PET" = false → mFromCodeCore ('Z' :: rest) d = "Nuclear Medicine") := by
  have hz : startsW ('Z' :: rest) "Z" = true := rfl
  have hXR : startsW ('Z' :: rest) "XR" = false := isPre_head_false (by decide)
  have hAX : startsW ('Z' :: rest) "AX" = false := isPre_head_false (by decide)
  have hRT : startsW ('Z' :: rest) "RT" = false := isPre_head_false (by decide)
  have hCT : startsW ('Z' :: rest) "CT" = false := isPre_head_false (by decide)
  have hMR : startsW ('Z' :: rest) "MR" = false := isPre_head_false (by decide)
  have hFL : startsW ('Z' :: rest) "FL" = false := isPre_head_false (by decide)
  have hNM : startsW ('Z' :: rest) "NM" = false := isPre_head_false (by decide)
  have hfm : firstMatch MODALITY_PATTERNS ('Z' :: rest) =
      (if (occSuffixes "PET" rest).any (fun s => containsS s "CT") then some "PET/CT"
       else if containsS rest "PET" then some "PET"
       else some "Nuclear Medicine") := by
    unfold MODALITY_PATTERNS
    rw [firstMatch_cons_false hXR, firstMatch_cons_false hAX, firstMatch_cons_false hRT,
        firstMatch_cons_false (show (startsW ('Z' :: rest) "CT" &&
          !containsS (('Z' :: rest).drop 2) "ANG") = false by simp [hCT]),
        firstMatch_cons_false (show (startsW ('Z' :: rest) "CT" &&
          containsS (('Z' :: rest).drop 2) "ANG") = false by simp [hCT]),
        firstMatch_cons_false (show (startsW ('Z' :: rest) "MR" &&
          !containsS (('Z' :: rest).drop 2) "MRA" &&
          !containsS (('Z' :: rest).drop 2) "MRV") = false by simp [hMR]),
        firstMatch_cons_false (show (startsW ('Z' :: rest) "MR" &&
          containsS (('Z' :: rest).drop 2) "MRA") = false by simp [hMR]),
        firstMatch_cons_false (show (startsW ('Z' :: rest) "MR" &&
          containsS (('Z' :: rest).drop 2) "MRV") = false by simp [hMR]),
        firstMatch_cons_false hFL, firstMatch_cons_false hNM]
    cases h11 : (occSuffixes "PET" rest).any (fun s => containsS s "CT") with
    | true =>
      rw [firstMatch_cons_true (show (startsW ('Z' :: rest) "Z" &&
            (occSuffixes "PET" rest).any (fun s => containsS s "CT")) = true
          by simp [hz, h11]), if_pos rfl]
    | false =>
      rw [firstMatch_cons_false (show (startsW ('Z' :: rest) "Z" &&
            (occSuffixes "PET" rest).any (fun s => containsS s "CT")) = false
          by simp [h11]), if_neg (by simp)]
      cases h12 : containsS rest "PET" with
      | true =>
        rw [firstMatch_cons_true (show (startsW ('Z' :: rest) "Z" &&
              containsS rest "PET") = true by simp [hz, h12]),
            if_pos rfl]
      | false =>
        rw [firstMatch_cons_false (show (startsW ('Z' :: rest) "Z" &&
              containsS rest "PET") = false by simp [h12]),
            if_neg (by simp), firstMatch_cons_true hz]
  constructor
  · unfold mFromCodeCore
    rw [hfm]
    cases h11 : (occSuffixes "PET" rest).any (fun s => containsS s "CT") with
    | true =>
      rw [if_pos rfl]
      split
      · next hcond => simp at hcond
      · next m hm =>
          injection hm with h
          subst h
          split
          · next hcond => exact absurd hcond.1 (by decide)
          · decide
    | false =>
      rw [if_neg (by simp)]
      cases h12 : containsS rest "PET" with
      | true =>
        rw [if_pos rfl]
        split
        · next hcond => simp at hcond
        · next m hm =>
            injection hm with h
            subst h
            split
            · next hcond => exact absurd hcond.1 (by decide)
            · decide
      | false =>
        rw [if_neg (by simp)]
        split
        · next hcond => simp at hcond
        · next m hm =>
            injection hm with h
            subst h
            repeat' split
            all_goals decide
  · intro hpet
    have h11 : (occSuffixes "PET" rest).any (fun s => containsS s "CT") = false := by
      have hemp : occSuffixes "PET" rest = [] := by
        have h0 : (occSuffixes "PET" rest).isEmpty = true := by
          have h1 := hpet
          unfold containsS at h1
          simpa using h1
        simpa [List.isEmpty_iff] using h0
      rw [hemp]
      rfl
    unfold mFromCodeCore
    rw [hfm, if_neg (by simp [h11]), if_neg (by simp [hpet])]
    split
    · next hcond => simp at hcond
    · next m hm =>
        injection hm with h
        subst h
        repeat' split
        all_goals rfl

/-- C9: for every exam code whose uppercased, stripped form begins with
`Z`, and every description, `modality_from_examcode` returns
`"PET/CT"`, `"PET"` or `"Nuclear Medicine"`; and when the code does not
match a PET pattern (no `PET` occurrence after the leading `Z`), the
result is `"Nuclear Medicine"` for every description — the
description-keyword checks inside the Z branch only ever confirm that
value. -/
theorem claim9_zcode_modalities (c d : String)
    (hz : startsW (stripL (upL c.toList)) "Z" = true) :
    modality_from_examcode (some c) d ∈ (["PET/CT", "PET", "Nuclear Medicine"] : List String) ∧
    (containsS ((stripL (upL c.toList)).drop 1) "PET" = false →
      modality_from_examcode (some c) d = "Nuclear Medicine") := by
  by_cases hc : c = ""
  · rw [hc] at hz
    exact absurd hz (by decide)
  · obtain ⟨rest, hcode⟩ : ∃ rest, stripL (upL c.toList) = 'Z' :: rest := by
      rcases hl : stripL (upL c.toList) with _ | ⟨c0, rest⟩
      · rw [hl] at hz
        exact absurd hz (by decide)
      · rw [hl] at hz
        have h3 : ('Z' == c0 && isPre [] rest) = true := hz
        rw [Bool.and_eq_true] at h3
        exact ⟨rest, by rw [← beq_iff_eq.mp h3.1]⟩
    have hm : modality_from_examcode (some c) d = mFromCodeCore ('Z' :: rest) d := by
      show (if c = "" then "Other" else mFromCodeCore (stripL (upL c.toList)) d) =
        mFromCodeCore ('Z' :: rest) d
      rw [if_neg hc, hcode]
    constructor
    · rw [hm]
      exact (zCodeCore rest d).1
    · intro hp
      rw [hcode] at hp
      rw [hm]
      exact (zCodeCore rest d).2 hp

/-- C9 witness: the theorem applied to the Z code `"ZNMB"` with a bone
scan description. -/
theorem claim9_witness :
    modality_from_examcode (some "ZNMB") "BONE SCAN" ∈
      (["PET/CT", "PET", "Nuclear Medicine"] : List String) ∧
    modality_from_examcode (some "ZNMB") "BONE SCAN" = "Nuclear Medicine" :=
  ⟨(claim9_zcode_modalities "ZNMB" "BONE SCAN" (by decide)).1,
   (claim9_zcode_modalities "ZNMB" "BONE SCAN" (by decide)).2 (by decide)⟩

/-! ## Claim C10: codes matching no modality prefix pattern -/

theorem unmatchedCore (u : List Char) (d : String)
    (hall : MODALITY_PATTERNS.all (fun p => !(p.1 u)) = true) :
    mFromCodeCore u d = "Other" ∧
    bpFromCodeCore u d = (if d = "" then "Unknown" else body_parts_from_desc d) := by
  have hfm := firstMatch_none_of_all hall
  simp only [List.all_cons, MODALITY_PATTERNS, List.all_nil, Bool.and_eq_true,
    Bool.not_eq_true', Bool.and_true, and_true] at hall
  obtain ⟨h1, h2, h3, h4, h5, h6, h7, h8, h9, h10, h11, h12, h13⟩ := hall
  have hCT : startsW u "CT" = false := by
    cases hct : startsW u "CT" with
    | false => rfl
    | true =>
      cases hang : containsS (u.drop 2) "ANG" with
      | true => rw [hct, hang] at h5; simp at h5
      | false => rw [hct, hang] at h4; simp at h4
  have hMR : startsW u "MR" = false := by
    cases hmr : startsW u "MR" with
    | false => rfl
    | true =>
      cases ha : containsS (u.drop 2) "MRA" with
      | true => rw [hmr, ha] at h7; simp at h7
      | false =>
        cases hv : containsS (u.drop 2) "MRV" with
        | true => rw [hmr, hv] at h8; simp at h8
        | false => rw [hmr, ha, hv] at h6; simp at h6
  constructor
  · unfold mFromCodeCore
    rw [hfm]
  · have hballs : BODY_PART_CODE_PATTERNS.all (fun p => !(p.1 u)) = true := by
      simp [BODY_PART_CODE_PATTERNS, hCT, hMR, h1, h2, h3, h10]
    have hbfm := firstMatch_none_of_all hballs
    unfold bpFromCodeCore
    rw [if_neg (by simp [hCT]), if_neg (by simp [hCT]), hbfm, if_neg (by simp [h13])]

/-- C10: for every non-empty exam code whose uppercased, stripped form
matches no modality prefix pattern (for example any code beginning with
`US`), `modality_from_examcode` returns `"Other"` whatever the
description — the modality never falls back to description-based
classification — while `body_part_from_examcode` for the same code does
fall back to `body_parts_from_desc` on the description when it is
non-empty (and `"Unknown"` when it is empty). -/
theorem claim10_unmatched_code (c d : String) (hc : c ≠ "")
    (hall : MODALITY_PATTERNS.all (fun p => !(p.1 (stripL (upL c.toList)))) = true) :
    modality_from_examcode (some c) d = "Other" ∧
    body_part_from_examcode (some c) d =
      (if d = "" then "Unknown" else body_parts_from_desc d) := by
  constructor
  · show (if c = "" then "Other" else mFromCodeCore (stripL (upL c.toList)) d) = "Other"
    rw [if_neg hc]
    exact (unmatchedCore _ d hall).1
  · show (if c = "" then (if d = "" then "Unknown" else body_parts_from_desc d)
        else bpFromCodeCore (stripL (upL c.toList)) d) =
      (if d = "" then "Unknown" else body_parts_from_desc d)
    rw [if_neg hc]
    exact (unmatchedCore _ d hall).2

/-- C10 witness: the theorem applied to the code `"USABD"` (an
ultrasound-style prefix no modality pattern covers) with a non-empty
description. -/
theorem claim10_witness :
    ("USABD" : String) ≠ "" ∧
    MODALITY_PATTERNS.all (fun p => !(p.1 (stripL (upL "USABD".toList)))) = true ∧
    modality_from_examcode (some "USABD") "US ABDOMEN" = "Other" ∧
    body_part_from_examcode (some "USABD") "US ABDOMEN" =
      (if ("US ABDOMEN" : String) = "" then "Unknown"
       else body_parts_from_desc "US ABDOMEN") :=
  ⟨by decide, by decide,
   (claim10_unmatched_code "USABD" "US ABDOMEN" (by decide) (by decide)).1,
   (claim10_unmatched_code "USABD" "US ABDOMEN" (by decide) (by decide)).2⟩

end RVU
